import Mathlib

/-!
Shallow embedding of the four AWS Lambda handlers of the photo-sharing
backend (src/lambda_functions): generate_presign_url.py (authorize_upload),
image_resizer.py (process), all_thumbnails.py (list_recent) and
user_specific_thumbnails.py (list_for_identity).  External collaborators
(S3, DynamoDB, PIL, the clock and the uuid generator) are modelled as
explicit parameters of each handler; side effects (credential issuance,
DynamoDB puts, S3 puts) are returned as explicit effect lists.
-/

namespace PhotoShare

/-- JSON values, as parsed request bodies and response bodies. -/
inductive Json where
  | null
  | bool (b : Bool)
  | num (n : Int)
  | str (s : String)
  | arr (xs : List Json)
  | obj (fields : List (String × Json))

/-- Python truthiness of a JSON value (used by the handlers via `if not x`). -/
def truthy : Json → Bool
  | .null => false
  | .bool b => b
  | .num n => n != 0
  | .str s => s != ""
  | .arr xs => !xs.isEmpty
  | .obj fs => !fs.isEmpty

/-- Whether a JSON value is a string. -/
def Json.isStr : Json → Bool
  | .str _ => true
  | _ => false

/-- Field lookup in a JSON object; none when the value is not an object or
the key is absent. -/
def jsonLookup (j : Json) (k : String) : Option Json :=
  match j with
  | .obj fs => fs.lookup k
  | _ => none

/-- The response envelope every handler produces: a status code, an optional
headers map (none when the Python dict literal has no headers key at all),
and a body. -/
structure Response where
  statusCode : Nat
  headers : Option (List (String × Json))
  body : Json

/-- Index of the last occurrence of a character, helper for `splitext`. -/
def lastIdxOfAux (c : Char) : List Char → Nat → Option Nat → Option Nat
  | [], _, acc => acc
  | x :: xs, i, acc => lastIdxOfAux c xs (i + 1) (if x = c then some i else acc)

/-- Index of the last occurrence of a character in a list. -/
def lastIdxOf (c : Char) (l : List Char) : Option Nat :=
  lastIdxOfAux c l 0 none

/-- Model of os.path.splitext (posixpath): split at the last dot, provided
the dot lies after the last path separator and at least one non-dot
character of the base name precedes it (so a leading-dot name keeps its
dots). -/
def splitext (p : String) : String × String :=
  let l := p.toList
  let sepIdx : Int :=
    match lastIdxOf '/' l with
    | none => -1
    | some i => (i : Int)
  match lastIdxOf '.' l with
  | none => (p, "")
  | some d =>
    if sepIdx < (d : Int) then
      let start := (sepIdx + 1).toNat
      if ((l.drop start).take (d - start)).any (fun ch => ch ≠ '.') then
        (String.mk (l.take d), String.mk (l.drop d))
      else (p, "")
    else (p, "")

/-- Wall-clock timestamps handed to the handlers (datetime.now / utcnow). -/
structure Timestamp where
  year : Nat
  month : Nat
  day : Nat
  hour : Nat
  minute : Nat
  second : Nat

/-- Zero-pad to two digits, as strftime does for numeric fields. -/
def pad2 (n : Nat) : String :=
  if n < 10 then "0" ++ toString n else toString n

/-- Zero-pad to four digits, as strftime does for the year. -/
def pad4 (n : Nat) : String :=
  if n < 10 then "000" ++ toString n
  else if n < 100 then "00" ++ toString n
  else if n < 1000 then "0" ++ toString n
  else toString n

/-- Model of strftime with format YYYYMMDD-HHMMSS, second resolution. -/
def strftimeCompact (t : Timestamp) : String :=
  pad4 t.year ++ pad2 t.month ++ pad2 t.day ++ "-" ++
    pad2 t.hour ++ pad2 t.minute ++ pad2 t.second

/-- Model of datetime.isoformat at second resolution. -/
def isoFormat (t : Timestamp) : String :=
  pad4 t.year ++ "-" ++ pad2 t.month ++ "-" ++ pad2 t.day ++ "T" ++
    pad2 t.hour ++ ":" ++ pad2 t.minute ++ ":" ++ pad2 t.second

/-- generate_unique_filename from generate_presign_url.py: base name plus
timestamp plus the first 8 characters of a uuid4 string, keeping the
extension.  The clock value and the uuid string are explicit inputs. -/
def generate_unique_filename (now : Timestamp) (uuid : String)
    (original_name : String) : String :=
  let base_name := (splitext original_name).1
  let ext := (splitext original_name).2
  base_name ++ "-" ++ strftimeCompact now ++ "-" ++ uuid.take 8 ++ ext

/-- API Gateway events as the handlers consume them.  `body` is none when
the event has no body key, `some none` when the body is absent (None) or
not valid JSON, and `some (some j)` when it parses to `j`.  `claims` is the
dictionary at requestContext.authorizer.claims, none when any link of that
chain is missing. -/
structure ApiEvent where
  httpMethod : Option String
  body : Option (Option Json)
  claims : Option (List (String × String))

/-- Environment of generate_presign_url.lambda_handler: the UPLOAD_BUCKET
environment variable, the clock, the uuid4 draw, and success oracles for
the two outbound calls (generate_presigned_url and DynamoDB put_item). -/
structure PresignEnv where
  uploadBucket : Option String
  now : Timestamp
  uuid : String
  presignOk : Bool
  putOk : Bool

/-- Side effects of the upload authorizer: a presigned write credential
issued for one key, and a DynamoDB PhotoRecord put. -/
inductive PresignEffect where
  | presignIssued (bucket key contentType : String)
      (metadata : List (String × String)) (expiresIn : Nat)
  | dynamoPut (item : List (String × Json))

/-- Uncaught Python exceptions escaping a handler. -/
inductive PyExn where
  | typeError (msg : String)

/-- The request-validation block of generate_presign_url.lambda_handler:
json.loads(event.body) followed by body subscripting.  none means some
step raised (KeyError on a missing body or field, json decode error, or
TypeError on a non-object body), which the handler catches as a 400. -/
def bodyFields (ev : ApiEvent) : Option (Json × Json) :=
  match ev.body with
  | some (some (.obj fs)) =>
    match fs.lookup "fileName", fs.lookup "fileType" with
    | some fn, some ft => some (fn, ft)
    | _, _ => none
  | _ => none

/-- A request is invalid when body parsing or field access raises, or when
either field is falsy (the `if not original_name or not file_type` check). -/
def requestInvalid (ev : ApiEvent) : Bool :=
  match bodyFields ev with
  | none => true
  | some (fn, ft) => !truthy fn || !truthy ft

/-- A request passes validation with a truthy non-string fileName: the one
configuration that reaches generate_unique_filename, outside every try
block, with an argument os.path.splitext rejects with a TypeError. -/
def requestCrashes (ev : ApiEvent) : Bool :=
  match bodyFields ev with
  | none => false
  | some (fn, ft) => truthy fn && truthy ft && !fn.isStr

/-- The CORS headers of the success and presign-failure responses of
generate_presign_url.lambda_handler (no Content-Type among them). -/
def presignHeaders : List (String × Json) :=
  [("Access-Control-Allow-Origin", .str "*"),
   ("Access-Control-Allow-Credentials", .bool true)]

/-- Model of the presigned URL string returned by
s3.generate_presigned_url for one bucket and key. -/
def presignedUrlFor (bucket key : String) : String :=
  "https://" ++ bucket ++ ".s3.amazonaws.com/" ++ key

/-- lambda_handler of generate_presign_url.py.  Returns the response and
the ordered list of performed side effects, or an uncaught exception.
Control flow mirrors the source: configuration check, request validation
(caught, 400), best-effort identity extraction defaulting to unknown,
file preparation outside any try block (where a non-string fileName makes
os.path.splitext raise an uncaught TypeError), then presigned-URL issuance
and the DynamoDB put inside one try block whose except returns a 500 with
only the CORS headers. -/
def presignHandler (env : PresignEnv) (ev : ApiEvent) :
    Except PyExn (Response × List PresignEffect) :=
  match env.uploadBucket with
  | none =>
    .ok (⟨500, none, .obj [("error", .str "Upload bucket not configured")]⟩, [])
  | some bucket_name =>
    match bodyFields ev with
    | none =>
      .ok (⟨400, none,
        .obj [("error", .str "Invalid request format"),
              ("details", .str "missing body, undecodable body, or missing field")]⟩, [])
    | some (original_name, file_type) =>
      if truthy original_name && truthy file_type then
        let user_email := ((ev.claims.getD []).lookup "email").getD "unknown"
        match original_name with
        | .str original_name_s =>
          let unique_filename :=
            generate_unique_filename env.now env.uuid original_name_s
          let thumbnail_key := "thumb-" ++ unique_filename
          let upload_date := isoFormat env.now
          let metadata : List (String × Json) :=
            [("uploadedBy", .str user_email),
             ("originalFileName", .str original_name_s),
             ("uniqueFileName", .str unique_filename),
             ("thumbnailKey", .str thumbnail_key),
             ("uploadDate", .str upload_date),
             ("contentType", file_type),
             ("status", .str "pending")]
          match file_type, env.presignOk with
          | .str file_type_s, true =>
            let presignEff := PresignEffect.presignIssued bucket_name
              unique_filename file_type_s
              [("uploadedBy", user_email),
               ("originalFileName", original_name_s),
               ("thumbnailKey", thumbnail_key),
               ("uniqueFileName", unique_filename)] 3600
            if env.putOk then
              .ok (⟨200, some presignHeaders,
                .obj [("presignedUrl", .str (presignedUrlFor bucket_name unique_filename)),
                      ("originalFileName", .str original_name_s),
                      ("uniqueFileName", .str unique_filename),
                      ("thumbnailKey", .str thumbnail_key),
                      ("metadata", .obj metadata)]⟩,
                [presignEff, .dynamoPut
                  [("photoMetadata", .str unique_filename),
                   ("originalFileName", .str original_name_s),
                   ("thumbnailKey", .str thumbnail_key),
                   ("uniqueFileName", .str unique_filename),
                   ("originalBucket", .str bucket_name),
                   ("contentType", file_type),
                   ("uploadedBy", .str user_email),
                   ("uploadDate", .str upload_date),
                   ("status", .str "pending"),
                   ("fileSize", .num 0),
                   ("dimensions", .str "0x0")]])
            else
              .ok (⟨500, some presignHeaders,
                .obj [("error", .str "Failed to generate upload URL"),
                      ("details", .str "put_item failed")]⟩, [presignEff])
          | _, _ =>
            .ok (⟨500, some presignHeaders,
              .obj [("error", .str "Failed to generate upload URL"),
                    ("details", .str "generate_presigned_url failed")]⟩, [])
        | _ =>
          .error (.typeError "expected str, bytes or os.PathLike object")
      else
        .ok (⟨400, none,
          .obj [("error", .str "Invalid request format"),
                ("details", .str "fileName and fileType are required")]⟩, [])

/-- The image surface of the PIL contract the resizer uses: a color mode
and pixel dimensions. -/
structure PILImage where
  mode : String
  width : Nat
  height : Nat

/-- The external PIL codec contract: decoding (Image.open plus verify;
none on open or verify failure) and encoding (Image.save with a format
name and a quality setting). -/
structure PILCodec where
  decode : List Nat → Option PILImage
  encode : String → Nat → PILImage → List Nat

/-- Rounding of the exact aspect-preserving width a/b in the tall branch
of PIL Image.thumbnail: nearest of floor and ceiling under the linear
aspect-distance key, ties resolved to the floor. -/
def roundAspectDown (a b : Nat) : Nat :=
  if a % b = 0 then a / b
  else if (2 * (a / b) + 1) * b < 2 * a then a / b + 1
  else a / b

/-- Rounding of the exact aspect-preserving height a/b in the wide branch
of PIL Image.thumbnail: nearest of floor and ceiling under the reciprocal
aspect-distance key, with a zero floor winning outright. -/
def roundAspect2 (a b : Nat) : Nat :=
  if a % b = 0 then a / b
  else if a / b = 0 then 0
  else if 2 * b * (a / b) * (a / b + 1) < a * (2 * (a / b) + 1) then a / b + 1
  else a / b

/-- Integer model of PIL Image.thumbnail((150, 150)): unchanged when both
dimensions already fit, otherwise the larger side becomes 150 and the
other is rounded from the exact aspect-preserving value (at least 1). -/
def pilThumbnail (w h : Nat) : Nat × Nat :=
  if w ≤ 150 ∧ h ≤ 150 then (w, h)
  else if w ≤ h then (max (roundAspectDown (150 * w) h) 1, 150)
  else (150, max (roundAspect2 (150 * h) w) 1)

/-- An object fetched from S3: payload bytes and attached user metadata. -/
structure S3Object where
  body : List Nat
  metadata : List (String × String)

/-- One record of an S3 event notification; `key` is the object key after
unquote_plus has removed the percent-encoding of the notification payload
(URL decoding is done by the external urllib call at the top of the
handler, so the model consumes the decoded key). -/
structure S3Record where
  bucket : String
  key : String

/-- An S3 event as delivered to image_resizer.lambda_handler. -/
structure ResizerEvent where
  records : List S3Record

/-- Environment of image_resizer.lambda_handler: the readable state of S3
(none models a failed or missing get_object), the success oracle of
put_object, and the clock. -/
structure ResizerEnv where
  getObject : String → String → Option S3Object
  putOk : Bool
  now : Timestamp

/-- An s3.put_object side effect. -/
structure PutEffect where
  bucket : String
  key : String
  body : List Nat
  contentType : String
  metadata : List (String × String)

/-- SUPPORTED_FORMATS of image_resizer.py: extension, PIL format name,
MIME content type. -/
def SUPPORTED_FORMATS : List (String × String × String) :=
  [("jpg", ("JPEG", "image/jpeg")),
   ("jpeg", ("JPEG", "image/jpeg")),
   ("png", ("PNG", "image/png")),
   ("webp", ("WEBP", "image/webp")),
   ("gif", ("GIF", "image/gif")),
   ("bmp", ("BMP", "image/bmp")),
   ("tiff", ("TIFF", "image/tiff"))]

/-- The last dot-separated segment of a character list: the whole list
when no dot occurs, the (possibly empty) suffix after the last dot
otherwise, exactly the last element of a Python split on a dot. -/
def lastDotSegment : List Char → List Char → List Char
  | [], acc => acc.reverse
  | c :: cs, acc =>
    if c = '.' then lastDotSegment cs []
    else lastDotSegment cs (c :: acc)

/-- Extension extraction of the resizer: last dot-separated segment of the
key, lower-cased (the whitelist is all ASCII, where Char.toLower agrees
with the Python lower call). -/
def fileExtensionOf (key : String) : String :=
  String.mk ((lastDotSegment key.toList []).map Char.toLower)

/-- Whitelist lookup for an extension. -/
def formatInfo (ext : String) : Option (String × String) :=
  SUPPORTED_FORMATS.lookup ext

/-- WxH dimension strings as the resizer formats them. -/
def dimsStr (w h : Nat) : String :=
  toString w ++ "x" ++ toString h

/-- The color-mode normalization of the resizer: JPEG-family outputs are
forced to RGB, every other case keeps the decoded mode; the dimensions
are untouched. -/
def jpegNormalize (ext : String) (img : PILImage) : PILImage :=
  if (ext == "jpg" || ext == "jpeg") && img.mode != "RGB" then
    { img with mode := "RGB" }
  else img

/-- The except-branch response of image_resizer.lambda_handler: a 500 with
no headers key, referencing the source key when it is in scope. -/
def resizerError (msg key : String) : Response :=
  ⟨500, none,
    .obj [("error", .str msg),
          ("object_key", .str key),
          ("stack_trace", .str "Not available")]⟩

/-- lambda_handler of image_resizer.py, the process operation.  Returns
the response and the list of S3 puts performed.  Control flow mirrors the
source inside its single try block: read Records, whitelist the
extension, fetch the object, reject empty payloads, decode and verify,
force RGB for JPEG outputs, read the original dimensions, shrink to at
most 150 by 150, re-encode at quality 85 in the format implied by the
source extension, and put the result at thumb- plus the source key. -/
def resizerHandler (pil : PILCodec) (env : ResizerEnv) (ev : ResizerEvent) :
    Response × List PutEffect :=
  match ev.records.head? with
  | none => (resizerError "KeyError on event Records" "unknown", [])
  | some r =>
    let source_key := r.key
    let ext := fileExtensionOf source_key
    match formatInfo ext with
    | none => (resizerError ("Unsupported image format: " ++ ext) source_key, [])
    | some fmtct =>
      match env.getObject r.bucket source_key with
      | none => (resizerError "get_object failed" source_key, [])
      | some obj =>
        if obj.body.isEmpty then
          (resizerError "Downloaded image is empty (0 bytes)" source_key, [])
        else
          match pil.decode obj.body with
          | none => (resizerError "Invalid image file" source_key, [])
          | some image0 =>
            let user_email := (obj.metadata.lookup "uploadedBy").getD "unknown"
            let image1 := jpegNormalize ext image0
            let width := image1.width
            let height := image1.height
            let twth := pilThumbnail width height
            let image2 : PILImage := ⟨image1.mode, twth.1, twth.2⟩
            let thumbBytes := pil.encode fmtct.1 85 image2
            let target_key := "thumb-" ++ source_key
            if env.putOk then
              (⟨200, none,
                .obj [("message", .str "Thumbnail created successfully"),
                      ("thumbnail_key", .str target_key),
                      ("original_key", .str source_key),
                      ("original_dimensions", .str (dimsStr width height)),
                      ("thumbnail_dimensions", .str (dimsStr twth.1 twth.2))]⟩,
               [⟨"photo-sharing-bucket-thumbnail", target_key, thumbBytes, fmtct.2,
                 [("original-key", source_key),
                  ("processed-by", "thumbnail-generator"),
                  ("uploadedBy", user_email),
                  ("original-dimensions", dimsStr width height),
                  ("thumbnail-dimensions", dimsStr twth.1 twth.2),
                  ("processing-date", isoFormat env.now)]⟩])
            else
              (resizerError "put_object failed" source_key, [])

/-- The full headers map both catalog readers attach to every response. -/
def readerHeaders : List (String × Json) :=
  [("Content-Type", .str "application/json"),
   ("Access-Control-Allow-Origin", .str "*"),
   ("Access-Control-Allow-Headers", .str "Content-Type, Authorization"),
   ("Access-Control-Allow-Methods", .str "GET, OPTIONS")]

/-- The preflight acknowledgement the catalog readers return on OPTIONS. -/
def preflightResponse : Response :=
  ⟨200, some readerHeaders, .obj [("message", .str "CORS preflight OK")]⟩

/-- Environment of all_thumbnails.lambda_handler: the keys currently in
the thumbnails bucket in listing order, none when list_objects_v2 raises. -/
structure ListEnv where
  bucketKeys : Option (List String)

/-- lambda_handler of all_thumbnails.py, the list_recent operation.
Returns the response paired with the (always empty) list of S3 puts: the
source performs no write calls.  Mirrors the source: OPTIONS preflight,
then list_objects_v2 with MaxKeys 20, defaulting Contents to the empty
list, mapped to objects with one name field each. -/
def allThumbnailsHandler (env : ListEnv) (ev : ApiEvent) :
    Response × List PutEffect :=
  if ev.httpMethod = some "OPTIONS" then (preflightResponse, [])
  else
    match env.bucketKeys with
    | none =>
      (⟨500, some readerHeaders,
        .obj [("error", .str "Failed to load thumbnails"),
              ("details", .str "list_objects_v2 raised")]⟩, [])
    | some keys =>
      let contents := keys.take 20
      (⟨200, some readerHeaders,
        .obj [("thumbnails",
          .arr (contents.map (fun k => .obj [("name", .str k)])))]⟩, [])

/-- One DynamoDB item as the per-user reader sees it: the indexed
uploadedBy attribute, and the two attributes the handler subscripts,
optional because a defective record may lack them. -/
structure DbItem where
  uploadedBy : String
  thumbnailKey : Option String
  originalFileName : Option String

/-- Environment of user_specific_thumbnails.lambda_handler: the table
rows visible through the uploadedByIndex query, none when query raises. -/
structure UserEnv where
  tableItems : Option (List DbItem)

/-- The list comprehension of user_specific_thumbnails.py: build one entry
per item from its thumbnailKey and originalFileName attributes; the first
item lacking either raises a KeyError, aborting the whole comprehension. -/
def buildThumbs : List DbItem → Option (List Json)
  | [] => some []
  | it :: rest =>
    match it.thumbnailKey, it.originalFileName with
    | some tk, some ofn =>
      (buildThumbs rest).map
        (fun l => .obj [("name", .str tk), ("originalFileName", .str ofn)] :: l)
    | _, _ => none

/-- The identity the handler extracts from the event: the email claim when
the claims chain is present and the email is truthy, none otherwise. -/
def claimsEmail (ev : ApiEvent) : Option String :=
  match ev.claims with
  | none => none
  | some cs =>
    match cs.lookup "email" with
    | none => none
    | some e => if e = "" then none else some e

/-- The 401 body of user_specific_thumbnails.py. -/
def unauthorizedBody : Json :=
  .obj [("error", .str "Unauthorized"),
        ("details", .str "User email not found in token claims"),
        ("message", .str "Failed to authenticate user")]

/-- The 500 body of user_specific_thumbnails.py. -/
def userErrorBody : Json :=
  .obj [("error", .str "Failed to fetch thumbnails"),
        ("details", .str "query or item access raised"),
        ("message", .str "Server error while processing your request")]

/-- lambda_handler of user_specific_thumbnails.py, the list_for_identity
operation.  Mirrors the source: OPTIONS preflight, identity extraction
from requestContext.authorizer.claims with falsy emails rejected as 401,
a GSI query filtered on uploadedBy, the comprehension over the items (a
missing attribute raises into the 500 branch), and a 200 carrying the
thumbnails and their count. -/
def userThumbnailsHandler (env : UserEnv) (ev : ApiEvent) : Response :=
  if ev.httpMethod = some "OPTIONS" then preflightResponse
  else
    match claimsEmail ev with
    | none => ⟨401, some readerHeaders, unauthorizedBody⟩
    | some user_email =>
      match env.tableItems with
      | none => ⟨500, some readerHeaders, userErrorBody⟩
      | some items =>
        let matched := items.filter (fun it => it.uploadedBy = user_email)
        match buildThumbs matched with
        | none => ⟨500, some readerHeaders, userErrorBody⟩
        | some thumbs =>
          ⟨200, some readerHeaders,
            .obj [("thumbnails", .arr thumbs),
                  ("count", .num thumbs.length)]⟩

theorem roundAspectDown_le (a b : Nat) (hb : 0 < b) (hab : a ≤ 150 * b) :
    roundAspectDown a b ≤ 150 := by
  have hf : a / b < 151 := (Nat.div_lt_iff_lt_mul hb).mpr (by omega)
  unfold roundAspectDown
  split
  · omega
  · next hm =>
    have hne : a ≠ 150 * b := fun he => hm (he ▸ Nat.mul_mod_left 150 b)
    have hlt : a / b < 150 := (Nat.div_lt_iff_lt_mul hb).mpr (by omega)
    split <;> omega

theorem roundAspect2_le (a b : Nat) (hb : 0 < b) (hab : a ≤ 150 * b) :
    roundAspect2 a b ≤ 150 := by
  have hf : a / b < 151 := (Nat.div_lt_iff_lt_mul hb).mpr (by omega)
  unfold roundAspect2
  split
  · omega
  · next hm =>
    have hne : a ≠ 150 * b := fun he => hm (he ▸ Nat.mul_mod_left 150 b)
    have hlt : a / b < 150 := (Nat.div_lt_iff_lt_mul hb).mpr (by omega)
    split
    · omega
    · split <;> omega

/-- Neither output dimension of the thumbnail step exceeds 150. -/
theorem pilThumbnail_le (w h : Nat) :
    (pilThumbnail w h).1 ≤ 150 ∧ (pilThumbnail w h).2 ≤ 150 := by
  unfold pilThumbnail
  split
  · next hboth => exact ⟨hboth.1, hboth.2⟩
  · next hboth =>
    split
    · next hwh =>
      have hh : 0 < h := by omega
      exact ⟨Nat.max_le.mpr ⟨roundAspectDown_le _ _ hh (by omega), by omega⟩,
        le_refl 150⟩
    · next hwh =>
      have hw : 0 < w := by omega
      exact ⟨le_refl 150,
        Nat.max_le.mpr ⟨roundAspect2_le _ _ hw (by omega), by omega⟩⟩

/-- Mode normalization does not change the pixel dimensions. -/
theorem jpegNormalize_size (ext : String) (img : PILImage) :
    (jpegNormalize ext img).width = img.width ∧
    (jpegNormalize ext img).height = img.height := by
  unfold jpegNormalize
  split <;> exact ⟨rfl, rfl⟩

/-- A defective item anywhere in the list makes the comprehension raise. -/
theorem buildThumbs_none {l : List DbItem}
    (h : ∃ it ∈ l, it.thumbnailKey = none ∨ it.originalFileName = none) :
    buildThumbs l = none := by
  induction l with
  | nil => simp at h
  | cons a rest ih =>
    rcases h with ⟨it, hmem, hbad⟩
    rcases List.mem_cons.mp hmem with rfl | hmem'
    · cases htk : it.thumbnailKey with
      | none => simp [buildThumbs, htk]
      | some tk =>
        rcases hbad with h1 | h1
        · exact absurd htk (h1 ▸ fun he => Option.noConfusion he)
        · simp [buildThumbs, htk, h1]
    · cases htk : a.thumbnailKey with
      | none => simp [buildThumbs, htk]
      | some tk =>
        cases hof : a.originalFileName with
        | none => simp [buildThumbs, htk, hof]
        | some ofn => simp [buildThumbs, htk, hof, ih ⟨it, hmem', hbad⟩]

/-- When every item carries both attributes, the comprehension returns one
entry per item, in order. -/
theorem buildThumbs_some {l : List DbItem}
    (h : ∀ it ∈ l, it.thumbnailKey ≠ none ∧ it.originalFileName ≠ none) :
    buildThumbs l = some (l.map (fun it =>
      .obj [("name", .str (it.thumbnailKey.getD "")),
            ("originalFileName", .str (it.originalFileName.getD ""))])) := by
  induction l with
  | nil => rfl
  | cons a rest ih =>
    obtain ⟨h1, h2⟩ := h a (List.mem_cons_self a rest)
    cases htk : a.thumbnailKey with
    | none => exact absurd htk h1
    | some tk =>
      cases hof : a.originalFileName with
      | none => exact absurd hof h2
      | some ofn =>
        simp [buildThumbs, htk, hof,
          ih (fun it hit => h it (List.mem_cons_of_mem a hit))]

/-- C4: for every invocation of process whose decoded source key has an
extension outside the fixed whitelist, and for every invocation whose
fetched payload is empty, process returns a structured failure result
(the 500 error envelope) whose object_key field references the source
key, and no object is written to the thumbnails namespace. -/
theorem process_rejects_invalid (pil : PILCodec) (env : ResizerEnv)
    (ev : ResizerEvent) (r : S3Record)
    (hr : ev.records.head? = some r)
    (hbad : formatInfo (fileExtensionOf r.key) = none ∨
      ∃ obj, env.getObject r.bucket r.key = some obj ∧ obj.body = []) :
    ∃ msg, resizerHandler pil env ev = (resizerError msg r.key, []) ∧
      (resizerError msg r.key).statusCode = 500 ∧
      jsonLookup (resizerError msg r.key).body "object_key" =
        some (.str r.key) := by
  have hlook : ∀ msg, jsonLookup (resizerError msg r.key).body "object_key" =
      some (.str r.key) := by
    intro msg
    simp [resizerError, jsonLookup, List.lookup]
  rcases hbad with hfmt | ⟨obj, hobj, hemp⟩
  · exact ⟨"Unsupported image format: " ++ fileExtensionOf r.key,
      by simp only [resizerHandler, hr, hfmt], rfl, hlook _⟩
  · cases hfmt : formatInfo (fileExtensionOf r.key) with
    | none =>
      exact ⟨"Unsupported image format: " ++ fileExtensionOf r.key,
        by simp only [resizerHandler, hr, hfmt], rfl, hlook _⟩
    | some fc =>
      refine ⟨"Downloaded image is empty (0 bytes)", ?_, rfl, hlook _⟩
      simp only [resizerHandler, hr, hfmt, hobj, hemp, List.isEmpty_nil,
        if_true]

/-- C5: for every successful invocation of process on a whitelisted key
holding a valid image, exactly one object is written, at key thumb- plus
the decoded source key, encoded in the format implied by the source
extension at quality 85, with neither thumbnail dimension exceeding 150,
and with metadata preserving uploadedBy, the original dimensions as WxH,
the thumbnail dimensions, and the provenance tag. -/
theorem process_success (pil : PILCodec) (env : ResizerEnv)
    (ev : ResizerEvent) (r : S3Record) (fmt ct : String) (obj : S3Object)
    (img : PILImage)
    (hr : ev.records.head? = some r)
    (hfmt : formatInfo (fileExtensionOf r.key) = some (fmt, ct))
    (hobj : env.getObject r.bucket r.key = some obj)
    (hne : obj.body ≠ [])
    (hdec : pil.decode obj.body = some img)
    (hput : env.putOk = true) :
    (resizerHandler pil env ev).1.statusCode = 200 ∧
    (resizerHandler pil env ev).2 =
      [⟨"photo-sharing-bucket-thumbnail", "thumb-" ++ r.key,
        pil.encode fmt 85
          ⟨(jpegNormalize (fileExtensionOf r.key) img).mode,
           (pilThumbnail img.width img.height).1,
           (pilThumbnail img.width img.height).2⟩, ct,
        [("original-key", r.key),
         ("processed-by", "thumbnail-generator"),
         ("uploadedBy", (obj.metadata.lookup "uploadedBy").getD "unknown"),
         ("original-dimensions", dimsStr img.width img.height),
         ("thumbnail-dimensions",
           dimsStr (pilThumbnail img.width img.height).1
             (pilThumbnail img.width img.height).2),
         ("processing-date", isoFormat env.now)]⟩] ∧
    (pilThumbnail img.width img.height).1 ≤ 150 ∧
    (pilThumbnail img.width img.height).2 ≤ 150 := by
  have hie : obj.body.isEmpty = false := by
    cases hb : obj.body with
    | nil => exact absurd hb hne
    | cons a l => rfl
  have hw := (jpegNormalize_size (fileExtensionOf r.key) img).1
  have hh := (jpegNormalize_size (fileExtensionOf r.key) img).2
  refine ⟨?_, ?_, (pilThumbnail_le img.width img.height).1,
    (pilThumbnail_le img.width img.height).2⟩
  · simp only [resizerHandler, hr, hfmt, hobj, hie, hdec, hput, hw, hh,
      Bool.false_eq_true, if_false, if_true]
  · simp only [resizerHandler, hr, hfmt, hobj, hie, hdec, hput, hw, hh,
      Bool.false_eq_true, if_false, if_true]

/-- C8: every non-preflight invocation of list_recent whose storage
listing succeeds returns a 200 whose thumbnails are the first at most 20
bucket keys, each as an object with one name field; an empty namespace
yields the empty list (still a 200), and no write effect is performed. -/
theorem list_recent_spec (env : ListEnv) (ev : ApiEvent)
    (keys : List String)
    (hkeys : env.bucketKeys = some keys)
    (hm : ev.httpMethod ≠ some "OPTIONS") :
    (allThumbnailsHandler env ev).1.statusCode = 200 ∧
    jsonLookup (allThumbnailsHandler env ev).1.body "thumbnails" =
      some (.arr ((keys.take 20).map (fun k => .obj [("name", .str k)]))) ∧
    ((keys.take 20).map (fun k => Json.obj [("name", .str k)])).length ≤ 20 ∧
    (keys = [] →
      jsonLookup (allThumbnailsHandler env ev).1.body "thumbnails" =
        some (.arr [])) ∧
    (allThumbnailsHandler env ev).2 = [] := by
  have hred : allThumbnailsHandler env ev =
      (⟨200, some readerHeaders,
        .obj [("thumbnails",
          .arr ((keys.take 20).map (fun k => .obj [("name", .str k)])))]⟩, []) := by
    simp only [allThumbnailsHandler, if_neg hm, hkeys]
  refine ⟨by rw [hred], ?_, ?_, ?_, by rw [hred]⟩
  · rw [hred]
    simp [jsonLookup, List.lookup]
  · rw [List.length_map]
    exact List.length_take_le 20 keys
  · intro hnil
    subst hnil
    rw [hred]
    simp [jsonLookup, List.lookup]

/-- C9: list_for_identity returns a 401 carrying no thumbnails field when
the claims yield no identity; with an identity matching zero records it
returns a 200 with an empty thumbnails list and count 0; and every
non-preflight 200 carries a count equal to the length of its thumbnails
list. -/
theorem list_for_identity_spec :
    (∀ (env : UserEnv) (ev : ApiEvent),
      ev.httpMethod ≠ some "OPTIONS" → claimsEmail ev = none →
      (userThumbnailsHandler env ev).statusCode = 401 ∧
      jsonLookup (userThumbnailsHandler env ev).body "thumbnails" = none) ∧
    (∀ (env : UserEnv) (ev : ApiEvent) (email : String)
        (items : List DbItem),
      ev.httpMethod ≠ some "OPTIONS" → claimsEmail ev = some email →
      env.tableItems = some items →
      items.filter (fun it => it.uploadedBy = email) = [] →
      userThumbnailsHandler env ev =
        ⟨200, some readerHeaders,
          .obj [("thumbnails", .arr []), ("count", .num 0)]⟩) ∧
    (∀ (env : UserEnv) (ev : ApiEvent),
      ev.httpMethod ≠ some "OPTIONS" →
      (userThumbnailsHandler env ev).statusCode = 200 →
      ∃ l, (userThumbnailsHandler env ev).body =
        .obj [("thumbnails", .arr l), ("count", .num l.length)]) := by
  refine ⟨?_, ?_, ?_⟩
  · intro env ev hm hce
    have hred : userThumbnailsHandler env ev =
        ⟨401, some readerHeaders, unauthorizedBody⟩ := by
      simp only [userThumbnailsHandler, if_neg hm, hce]
    rw [hred]
    exact ⟨rfl, by simp [jsonLookup, unauthorizedBody, List.lookup]⟩
  · intro env ev email items hm hce hti hfil
    simp only [userThumbnailsHandler, if_neg hm, hce, hti, hfil, buildThumbs]
    rfl
  · intro env ev hm h200
    simp only [userThumbnailsHandler, if_neg hm] at h200 ⊢
    cases hce : claimsEmail ev with
    | none => simp [hce] at h200
    | some email =>
      simp only [hce] at h200 ⊢
      cases hti : env.tableItems with
      | none => simp [hti] at h200
      | some items =>
        simp only [hti] at h200 ⊢
        cases hbt : buildThumbs (items.filter (fun it => it.uploadedBy = email)) with
        | none => simp [hbt] at h200
        | some thumbs => simp only [hbt]; exact ⟨thumbs, rfl⟩

/-- C10: if any record matched by the secondary-index query lacks the
thumbnailKey or originalFileName attribute, list_for_identity returns a
500 with no thumbnails at all; otherwise the success response has exactly
one entry per matched record, each carrying both fields, and the count
equals the number of matched records. -/
theorem list_for_identity_defective (env : UserEnv) (ev : ApiEvent)
    (email : String) (items : List DbItem)
    (hm : ev.httpMethod ≠ some "OPTIONS")
    (hce : claimsEmail ev = some email)
    (hti : env.tableItems = some items) :
    ((∃ it ∈ items.filter (fun it => it.uploadedBy = email),
        it.thumbnailKey = none ∨ it.originalFileName = none) →
      (userThumbnailsHandler env ev).statusCode = 500 ∧
      jsonLookup (userThumbnailsHandler env ev).body "thumbnails" = none) ∧
    ((∀ it ∈ items.filter (fun it => it.uploadedBy = email),
        it.thumbnailKey ≠ none ∧ it.originalFileName ≠ none) →
      userThumbnailsHandler env ev =
        ⟨200, some readerHeaders,
          .obj [("thumbnails",
            .arr ((items.filter (fun it => it.uploadedBy = email)).map
              (fun it => .obj [("name", .str (it.thumbnailKey.getD "")),
                ("originalFileName", .str (it.originalFileName.getD ""))]))),
            ("count", .num ((items.filter
              (fun it => it.uploadedBy = email)).length))]⟩) := by
  constructor
  · intro hbad
    have hred : userThumbnailsHandler env ev =
        ⟨500, some readerHeaders, userErrorBody⟩ := by
      simp only [userThumbnailsHandler, if_neg hm, hce, hti,
        buildThumbs_none hbad]
    rw [hred]
    exact ⟨rfl, by simp [jsonLookup, userErrorBody, List.lookup]⟩
  · intro hok
    simp only [userThumbnailsHandler, if_neg hm, hce, hti,
      buildThumbs_some hok, List.length_map]

/-- Taking 8 characters of a string at least 8 long gives exactly 8. -/
theorem take8_length (s : String) (h : 8 ≤ s.length) :
    (s.take 8).length = 8 := by
  rw [String.take_eq]
  show (s.1.take 8).length = 8
  rw [List.length_take]
  have h8 : 8 ≤ s.1.length := h
  omega

/-- C2: for every valid request, authorize_upload returns a 200 whose
uniqueFileName is the base name, a dash, the second-resolution timestamp,
a dash, the 8-character uuid prefix, and the original extension, and
whose thumbnailKey is exactly the string thumb- concatenated with
uniqueFileName. -/
theorem authorize_upload_unique_filename (env : PresignEnv) (ev : ApiEvent)
    (fn ft : String)
    (hb : env.uploadBucket.isSome = true)
    (hf : bodyFields ev = some (.str fn, .str ft))
    (hfn : fn ≠ "") (hft : ft ≠ "")
    (hp : env.presignOk = true) (hq : env.putOk = true)
    (hu : 8 ≤ env.uuid.length) :
    ∃ r effs, presignHandler env ev = .ok (r, effs) ∧
      r.statusCode = 200 ∧
      jsonLookup r.body "uniqueFileName" =
        some (.str (generate_unique_filename env.now env.uuid fn)) ∧
      jsonLookup r.body "thumbnailKey" =
        some (.str ("thumb-" ++ generate_unique_filename env.now env.uuid fn)) ∧
      generate_unique_filename env.now env.uuid fn =
        (splitext fn).1 ++ "-" ++ strftimeCompact env.now ++ "-" ++
          env.uuid.take 8 ++ (splitext fn).2 ∧
      (env.uuid.take 8).length = 8 ∧
      (∃ stem, generate_unique_filename env.now env.uuid fn =
        stem ++ (splitext fn).2) := by
  obtain ⟨bucket, hbv⟩ := Option.isSome_iff_exists.mp hb
  have htr1 : truthy (.str fn) = true := by simp [truthy, hfn]
  have htr2 : truthy (.str ft) = true := by simp [truthy, hft]
  simp only [presignHandler, hbv, hf, htr1, htr2, Bool.and_self, hp, hq]
  refine ⟨_, _, rfl, rfl, ?_, ?_, rfl, take8_length env.uuid hu,
    ⟨(splitext fn).1 ++ "-" ++ strftimeCompact env.now ++ "-" ++
      env.uuid.take 8, rfl⟩⟩
  · simp [jsonLookup, List.lookup]
  · simp [jsonLookup, List.lookup]

/-- C3: for every request with the upload bucket configured in which
fileName or fileType is missing, unreadable, or falsy, authorize_upload
returns a 400 and performs no side effect: no credential is issued and no
PhotoRecord is written. -/
theorem authorize_upload_invalid_request (env : PresignEnv) (ev : ApiEvent)
    (hb : env.uploadBucket.isSome = true)
    (hinv : requestInvalid ev = true) :
    ∃ r, presignHandler env ev = .ok (r, []) ∧ r.statusCode = 400 := by
  obtain ⟨bucket, hbv⟩ := Option.isSome_iff_exists.mp hb
  unfold requestInvalid at hinv
  cases hbf : bodyFields ev with
  | none =>
    simp only [presignHandler, hbv, hbf]
    exact ⟨_, rfl, rfl⟩
  | some p =>
    obtain ⟨fn, ft⟩ := p
    rw [hbf] at hinv
    have hand : (truthy fn && truthy ft) = false := by
      cases h1 : truthy fn <;> cases h2 : truthy ft <;> simp_all
    simp only [presignHandler, hbv, hbf, hand, Bool.false_eq_true, if_false]
    exact ⟨_, rfl, rfl⟩

/-- Status code and headers of an authorizer outcome, none when the
handler raised. -/
def respStatusHeaders (x : Except PyExn (Response × List PresignEffect)) :
    Option (Nat × Option (List (String × Json))) :=
  match x with
  | .ok p => some (p.1.statusCode, p.1.headers)
  | .error _ => none

/-- A concrete configured environment for the upload authorizer. -/
def envDemo : PresignEnv :=
  ⟨some "photo-bucket", ⟨2023, 8, 15, 14, 30, 22⟩,
    "abc12345-0000-0000-0000-000000000000", true, true⟩

/-- A concrete valid upload request for vacation.png. -/
def evVacation : ApiEvent :=
  ⟨some "POST",
   some (some (.obj [("fileName", .str "vacation.png"),
                     ("fileType", .str "image/png")])),
   some [("email", "alice@example.com")]⟩

/-- A concrete request whose fileName is the JSON number 5: truthy, so it
passes validation, but not a string. -/
def evNumericName : ApiEvent :=
  ⟨some "POST",
   some (some (.obj [("fileName", .num 5),
                     ("fileType", .str "image/png")])),
   none⟩

/-- A concrete request whose body parses to an object with no fields. -/
def evEmptyBody : ApiEvent :=
  ⟨some "POST", some (some (.obj [])), none⟩

/-- A concrete OPTIONS preflight request carrying no readable body. -/
def evOptions : ApiEvent := ⟨some "OPTIONS", some none, none⟩

/-- C6 counterexample: a configured environment and a request whose
fileName is the number 5 make authorize_upload raise an uncaught
TypeError out of os.path.splitext, which sits outside every try block. -/
theorem authorize_upload_uncaught_counterexample :
    presignHandler envDemo evNumericName =
      .error (.typeError "expected str, bytes or os.PathLike object") := rfl

/-- C6 amended: authorize_upload returns a response exactly when the
upload bucket is unconfigured or the request does not reach the
file-preparation lines with a truthy non-string fileName; at such
requests the TypeError escapes uncaught.  (process, list_recent and
list_for_identity are total functions of the model: every statement of
their bodies sits inside the single top-level try block.) -/
theorem authorize_upload_totality (env : PresignEnv) (ev : ApiEvent) :
    (presignHandler env ev).isOk =
      (!env.uploadBucket.isSome || !requestCrashes ev) := by
  cases hbv : env.uploadBucket with
  | none => simp [presignHandler, hbv, Except.isOk, Except.toBool]
  | some bucket =>
    cases hbf : bodyFields ev with
    | none => simp [presignHandler, requestCrashes, hbv, hbf, Except.isOk, Except.toBool]
    | some p =>
      obtain ⟨fn, ft⟩ := p
      simp only [presignHandler, requestCrashes, hbv, hbf,
        Option.isSome_some, Bool.not_true, Bool.false_or]
      cases h1 : truthy fn
      · simp [Except.isOk, Except.toBool]
      · cases h2 : truthy ft
        · simp [Except.isOk, Except.toBool]
        · simp only [Bool.and_self, Bool.true_and]
          cases fn with
          | str s =>
            cases ft <;> cases hp : env.presignOk <;>
              cases hq : env.putOk <;> simp [Except.isOk, Except.toBool, Json.isStr]
          | null => simp [Except.isOk, Except.toBool, Json.isStr]
          | bool b => simp [Except.isOk, Except.toBool, Json.isStr]
          | num n => simp [Except.isOk, Except.toBool, Json.isStr]
          | arr xs => simp [Except.isOk, Except.toBool, Json.isStr]
          | obj fs => simp [Except.isOk, Except.toBool, Json.isStr]

/-- C7 counterexample: an OPTIONS request to the upload authorizer, in a
configured environment, receives a 400 invalid-request response without
headers, not a 200 preflight acknowledgement. -/
theorem authorize_upload_options_counterexample :
    respStatusHeaders (presignHandler envDemo evOptions) =
      some (400, none) := rfl

/-- C7 amended: the two catalog readers answer OPTIONS with an immediate
200 preflight acknowledgement and no business logic, but the upload
authorizer has no OPTIONS branch: an OPTIONS request with an unreadable
body falls into request validation and gets a 400, with no side effect. -/
theorem options_preflight_amended :
    (∀ (env : ListEnv) (ev : ApiEvent), ev.httpMethod = some "OPTIONS" →
      allThumbnailsHandler env ev = (preflightResponse, [])) ∧
    (∀ (env : UserEnv) (ev : ApiEvent), ev.httpMethod = some "OPTIONS" →
      userThumbnailsHandler env ev = preflightResponse) ∧
    (∀ (env : PresignEnv) (ev : ApiEvent), env.uploadBucket.isSome = true →
      ev.httpMethod = some "OPTIONS" → ev.body = some none →
      ∃ r, presignHandler env ev = .ok (r, []) ∧ r.statusCode = 400) := by
  refine ⟨?_, ?_, ?_⟩
  · intro env ev hm
    simp [allThumbnailsHandler, hm]
  · intro env ev hm
    simp [userThumbnailsHandler, hm]
  · intro env ev hb hm hbody
    obtain ⟨bucket, hbv⟩ := Option.isSome_iff_exists.mp hb
    have hbf : bodyFields ev = none := by simp [bodyFields, hbody]
    simp only [presignHandler, hbv, hbf]
    exact ⟨_, rfl, rfl⟩

/-- C1 counterexample: the 400 failure response of authorize_upload at a
parsed-but-empty body carries no headers map at all, so it lacks the
Content-Type and CORS headers the claim requires of every failure path. -/
theorem failure_envelope_counterexample :
    respStatusHeaders (presignHandler envDemo evEmptyBody) =
      some (400, none) := rfl

/-- C1 amended: every response of the two catalog readers, failures
included, carries the full headers map; process attaches no headers map
to any response; and the failure responses of authorize_upload carry
either no headers map (configuration and validation failures) or only
the two CORS headers without Content-Type (the presign or record-write
500). -/
theorem failure_envelope_amended :
    (∀ (env : ListEnv) (ev : ApiEvent),
      (allThumbnailsHandler env ev).1.headers = some readerHeaders) ∧
    (∀ (env : UserEnv) (ev : ApiEvent),
      (userThumbnailsHandler env ev).headers = some readerHeaders) ∧
    (∀ (pil : PILCodec) (env : ResizerEnv) (ev : ResizerEvent),
      (resizerHandler pil env ev).1.headers = none) ∧
    (∀ (env : PresignEnv) (ev : ApiEvent) (r : Response)
        (effs : List PresignEffect),
      presignHandler env ev = .ok (r, effs) → r.statusCode ≠ 200 →
      r.headers = none ∨ r.headers = some presignHeaders) := by
  refine ⟨?_, ?_, ?_, ?_⟩
  · intro env ev
    unfold allThumbnailsHandler
    split
    · rfl
    · cases env.bucketKeys <;> rfl
  · intro env ev
    by_cases hm : ev.httpMethod = some "OPTIONS"
    · simp [userThumbnailsHandler, hm, preflightResponse]
    · simp only [userThumbnailsHandler, if_neg hm]
      cases hce : claimsEmail ev with
      | none => simp [hce]
      | some email =>
        simp only [hce]
        cases hti : env.tableItems with
        | none => simp [hti]
        | some items =>
          simp only [hti]
          cases hbt : buildThumbs
              (items.filter (fun it => it.uploadedBy = email)) <;>
            simp [hbt]
  · intro pil env ev
    cases hr : ev.records.head? with
    | none => simp [resizerHandler, hr, resizerError]
    | some r =>
      simp only [resizerHandler, hr]
      cases hfmt : formatInfo (fileExtensionOf r.key) with
      | none => simp [hfmt, resizerError]
      | some fc =>
        simp only [hfmt]
        cases hobj : env.getObject r.bucket r.key with
        | none => simp [hobj, resizerError]
        | some obj =>
          simp only [hobj]
          cases hie : obj.body.isEmpty
          · simp only [hie, Bool.false_eq_true, if_false]
            cases hdec : pil.decode obj.body with
            | none => simp [hdec, resizerError]
            | some img =>
              simp only [hdec]
              cases hput : env.putOk <;> simp [hput, resizerError]
          · simp [hie, resizerError]
  · intro env ev r effs he hne
    unfold presignHandler at he
    split at he
    · cases he
      exact Or.inl rfl
    · split at he
      · cases he
        exact Or.inl rfl
      · split at he
        · split at he
          · split at he
            · split at he
              · cases he
                exact absurd rfl hne
              · cases he
                exact Or.inr rfl
            · cases he
              exact Or.inr rfl
          · exact Except.noConfusion he
        · cases he
          exact Or.inl rfl

/-- A concrete GET request without claims. -/
def evGet : ApiEvent := ⟨some "GET", none, none⟩

/-- A concrete GET request authenticated as alice. -/
def evAlice : ApiEvent :=
  ⟨some "GET", none, some [("email", "alice@example.com")]⟩

/-- A concrete PIL codec: decodes the one-byte payload to an 800 by 600
RGB image, encodes to a small byte tag. -/
def pilDemo : PILCodec :=
  ⟨fun bytes => if bytes = [1] then some ⟨"RGB", 800, 600⟩ else none,
   fun _ q img => [img.width, img.height, q]⟩

/-- A concrete resizer environment: a valid one-byte a.jpg object and an
empty broken.jpg object. -/
def s3Demo : ResizerEnv :=
  ⟨fun bucket key =>
    if bucket = "photo-bucket" ∧ key = "a.jpg" then
      some ⟨[1], [("uploadedBy", "alice@example.com")]⟩
    else if bucket = "photo-bucket" ∧ key = "broken.jpg" then
      some ⟨[], []⟩
    else none,
   true, ⟨2023, 8, 15, 14, 30, 22⟩⟩

/-- Notification for the empty broken.jpg object. -/
def evBrokenJpg : ResizerEvent := ⟨[⟨"photo-bucket", "broken.jpg"⟩]⟩

/-- Notification for the valid a.jpg object. -/
def evGoodJpg : ResizerEvent := ⟨[⟨"photo-bucket", "a.jpg"⟩]⟩

/-- A concrete two-key thumbnails bucket. -/
def listEnvDemo : ListEnv := ⟨some ["thumb-a.jpg", "thumb-b.png"]⟩

/-- A concrete empty metadata table. -/
def userEnvDemo : UserEnv := ⟨some []⟩

/-- A concrete table whose only record for alice lacks thumbnailKey. -/
def userEnvBad : UserEnv :=
  ⟨some [⟨"alice@example.com", none, some "x.png"⟩]⟩

/-- C2 witness at the vacation.png scenario. -/
theorem authorize_upload_unique_filename_witness :
    bodyFields evVacation =
      some (.str "vacation.png", .str "image/png") ∧
    (∃ r effs, presignHandler envDemo evVacation = .ok (r, effs) ∧
      r.statusCode = 200 ∧
      jsonLookup r.body "uniqueFileName" =
        some (.str (generate_unique_filename envDemo.now envDemo.uuid
          "vacation.png")) ∧
      jsonLookup r.body "thumbnailKey" =
        some (.str ("thumb-" ++ generate_unique_filename envDemo.now
          envDemo.uuid "vacation.png")) ∧
      generate_unique_filename envDemo.now envDemo.uuid "vacation.png" =
        (splitext "vacation.png").1 ++ "-" ++ strftimeCompact envDemo.now ++
          "-" ++ envDemo.uuid.take 8 ++ (splitext "vacation.png").2 ∧
      (envDemo.uuid.take 8).length = 8 ∧
      (∃ stem, generate_unique_filename envDemo.now envDemo.uuid
        "vacation.png" = stem ++ (splitext "vacation.png").2)) :=
  ⟨rfl, authorize_upload_unique_filename envDemo evVacation "vacation.png"
    "image/png" rfl rfl (by decide) (by decide) rfl rfl (by decide)⟩

/-- C3 witness: a parsed body with no fields gets a 400 and no effects. -/
theorem authorize_upload_invalid_request_witness :
    requestInvalid evEmptyBody = true ∧
    (∃ r, presignHandler envDemo evEmptyBody = .ok (r, []) ∧
      r.statusCode = 400) :=
  ⟨rfl, authorize_upload_invalid_request envDemo evEmptyBody rfl rfl⟩

/-- C4 witness at the empty broken.jpg scenario. -/
theorem process_rejects_invalid_witness :
    evBrokenJpg.records.head? = some ⟨"photo-bucket", "broken.jpg"⟩ ∧
    (∃ msg, resizerHandler pilDemo s3Demo evBrokenJpg =
        (resizerError msg "broken.jpg", []) ∧
      (resizerError msg "broken.jpg").statusCode = 500 ∧
      jsonLookup (resizerError msg "broken.jpg").body "object_key" =
        some (.str "broken.jpg")) :=
  ⟨rfl, process_rejects_invalid pilDemo s3Demo evBrokenJpg
    ⟨"photo-bucket", "broken.jpg"⟩ rfl (Or.inr ⟨⟨[], []⟩, rfl, rfl⟩)⟩

/-- C5 witness at the valid 800 by 600 a.jpg scenario. -/
theorem process_success_witness :
    s3Demo.putOk = true ∧
    ((resizerHandler pilDemo s3Demo evGoodJpg).1.statusCode = 200 ∧
    (resizerHandler pilDemo s3Demo evGoodJpg).2 =
      [⟨"photo-sharing-bucket-thumbnail", "thumb-" ++ "a.jpg",
        pilDemo.encode "JPEG" 85
          ⟨(jpegNormalize (fileExtensionOf "a.jpg") ⟨"RGB", 800, 600⟩).mode,
           (pilThumbnail 800 600).1, (pilThumbnail 800 600).2⟩, "image/jpeg",
        [("original-key", "a.jpg"),
         ("processed-by", "thumbnail-generator"),
         ("uploadedBy",
           (([("uploadedBy", "alice@example.com")] :
             List (String × String)).lookup "uploadedBy").getD "unknown"),
         ("original-dimensions", dimsStr 800 600),
         ("thumbnail-dimensions",
           dimsStr (pilThumbnail 800 600).1 (pilThumbnail 800 600).2),
         ("processing-date", isoFormat s3Demo.now)]⟩] ∧
    (pilThumbnail 800 600).1 ≤ 150 ∧
    (pilThumbnail 800 600).2 ≤ 150) :=
  ⟨rfl, process_success pilDemo s3Demo evGoodJpg ⟨"photo-bucket", "a.jpg"⟩
    "JPEG" "image/jpeg" ⟨[1], [("uploadedBy", "alice@example.com")]⟩
    ⟨"RGB", 800, 600⟩ rfl rfl rfl (by decide) rfl rfl⟩

/-- C7 witness: both readers acknowledge a concrete OPTIONS request and
the authorizer answers the same request with a 400. -/
theorem options_preflight_witness :
    allThumbnailsHandler listEnvDemo evOptions = (preflightResponse, []) ∧
    userThumbnailsHandler userEnvDemo evOptions = preflightResponse ∧
    (∃ r, presignHandler envDemo evOptions = .ok (r, []) ∧
      r.statusCode = 400) :=
  ⟨options_preflight_amended.1 listEnvDemo evOptions rfl,
   options_preflight_amended.2.1 userEnvDemo evOptions rfl,
   options_preflight_amended.2.2 envDemo evOptions rfl rfl rfl⟩

/-- C8 witness at a concrete two-key bucket. -/
theorem list_recent_witness :
    listEnvDemo.bucketKeys = some ["thumb-a.jpg", "thumb-b.png"] ∧
    ((allThumbnailsHandler listEnvDemo evGet).1.statusCode = 200 ∧
    jsonLookup (allThumbnailsHandler listEnvDemo evGet).1.body "thumbnails" =
      some (.arr ((["thumb-a.jpg", "thumb-b.png"].take 20).map
        (fun k => .obj [("name", .str k)]))) ∧
    ((["thumb-a.jpg", "thumb-b.png"].take 20).map
      (fun k => Json.obj [("name", .str k)])).length ≤ 20 ∧
    (["thumb-a.jpg", "thumb-b.png"] = [] →
      jsonLookup (allThumbnailsHandler listEnvDemo evGet).1.body
        "thumbnails" = some (.arr [])) ∧
    (allThumbnailsHandler listEnvDemo evGet).2 = []) :=
  ⟨rfl, list_recent_spec listEnvDemo evGet ["thumb-a.jpg", "thumb-b.png"]
    rfl (by decide)⟩

/-- C9 witness: a concrete claimless request gets a 401 without data, and
a concrete authenticated request over an empty table gets the empty 200. -/
theorem list_for_identity_witness :
    ((userThumbnailsHandler userEnvDemo evGet).statusCode = 401 ∧
      jsonLookup (userThumbnailsHandler userEnvDemo evGet).body
        "thumbnails" = none) ∧
    userThumbnailsHandler userEnvDemo evAlice =
      ⟨200, some readerHeaders,
        .obj [("thumbnails", .arr []), ("count", .num 0)]⟩ :=
  ⟨list_for_identity_spec.1 userEnvDemo evGet (by decide) rfl,
   list_for_identity_spec.2.1 userEnvDemo evAlice "alice@example.com" []
     (by decide) rfl rfl rfl⟩

/-- C10 witness: one concrete record without thumbnailKey makes the whole
query return a 500 with no thumbnails. -/
theorem list_for_identity_defective_witness :
    (userThumbnailsHandler userEnvBad evAlice).statusCode = 500 ∧
    jsonLookup (userThumbnailsHandler userEnvBad evAlice).body
      "thumbnails" = none :=
  (list_for_identity_defective userEnvBad evAlice "alice@example.com"
    [⟨"alice@example.com", none, some "x.png"⟩] (by decide) rfl rfl).1
    ⟨⟨"alice@example.com", none, some "x.png"⟩, by simp, Or.inl rfl⟩

/-- C1 witness: concrete failure (and other) responses of all four
handlers exhibit the amended header behaviour. -/
theorem failure_envelope_witness :
    (allThumbnailsHandler listEnvDemo evGet).1.headers =
      some readerHeaders ∧
    (userThumbnailsHandler userEnvDemo evGet).headers =
      some readerHeaders ∧
    (resizerHandler pilDemo s3Demo evBrokenJpg).1.headers = none ∧
    ((⟨400, none,
        .obj [("error", .str "Invalid request format"),
          ("details",
            .str "missing body, undecodable body, or missing field")]⟩ :
        Response).headers = none ∨
      (⟨400, none,
        .obj [("error", .str "Invalid request format"),
          ("details",
            .str "missing body, undecodable body, or missing field")]⟩ :
        Response).headers = some presignHeaders) :=
  ⟨failure_envelope_amended.1 listEnvDemo evGet,
   failure_envelope_amended.2.1 userEnvDemo evGet,
   failure_envelope_amended.2.2.1 pilDemo s3Demo evBrokenJpg,
   failure_envelope_amended.2.2.2 envDemo evEmptyBody _ [] rfl (by decide)⟩

end PhotoShare
